import Mathlib

/-!
Verification of the WebSocket relay subcomponent of pyneda/goproxy
(`websocket.go`), as a shallow embedding in Lean 4.

The embedding covers:
* the upgrade predicate (`headerContains` / `isWebSocketHandshake`),
  with faithful models of the Go string helpers it calls
  (`strings.Split` on a comma, `strings.TrimSpace`, `strings.EqualFold`
  restricted to the ASCII folding those headers use);
* the raw-connection acquirer (`hijackConnection`), with the host runtime
  abstracted to whether it supports hijacking and what the hijack yields;
* the relay engine (`proxyWebsocket`): the two per-direction goroutines,
  the buffered signal channel, and the three optional handler slots are
  modelled as a trace of observable events, parameterised by a scheduler
  choice (an arbitrary interleaving of the two goroutines) and by an
  environment supplying the outcomes of the external copy operations.
-/

namespace GoProxy

/-! ## Go string helpers used by the upgrade predicate -/

/-- `strings.Split v ","` from Go: split on every comma; the empty string
yields one empty field.  Implemented by structural recursion on the
character list, carrying the (reversed) current field. -/
def splitCommaAux : List Char → List Char → List String
  | [], acc => [String.mk acc.reverse]
  | c :: cs, acc =>
    if c = ',' then String.mk acc.reverse :: splitCommaAux cs []
    else splitCommaAux cs (c :: acc)

/-- `strings.Split v ","` on a string. -/
def splitComma (s : String) : List String := splitCommaAux s.data []

/-- The code points `unicode.IsSpace` accepts in Latin-1 (the ones
`strings.TrimSpace` trims): `\t \n \v \f \r`, space, NEL and NBSP. -/
def isGoSpace (c : Char) : Bool :=
  c.val = 32 || (9 ≤ c.val && c.val ≤ 13) || c.val = 0x85 || c.val = 0xA0

/-- `strings.TrimSpace` from Go: drop leading and trailing white space. -/
def trimSpace (s : String) : String :=
  String.mk (((s.data.dropWhile isGoSpace).reverse.dropWhile isGoSpace).reverse)

/-- `strings.EqualFold` from Go, restricted to ASCII simple folding
(the header tokens compared here are ASCII): equality after lowering
each character. -/
def equalFold (s t : String) : Bool :=
  s.data.map Char.toLower == t.data.map Char.toLower

/-! ## Header maps and the upgrade predicate -/

/-- `http.Header`: a finite map from header names to lists of values,
modelled as an association list with first-match lookup (Go map keys are
unique, so first-match agrees with map indexing). -/
abbrev Header := List (String × List String)

/-- Go's `header[name]` map indexing: the value slice for the *exact* key
`name`, nil (`[]`) when absent.  No key canonicalisation happens here. -/
def headerIndex (header : Header) (name : String) : List String :=
  match header.find? (fun p => p.fst == name) with
  | some p => p.snd
  | none => []

/-- `headerContains` from `websocket.go`: scan every value recorded for
`name`, split each on commas, and report whether some trimmed token is
case-insensitively equal to `value`. -/
def headerContains (header : Header) (name value : String) : Bool :=
  (headerIndex header name).any fun v =>
    (splitComma v).any fun s => equalFold value (trimSpace s)

/-- `isWebSocketHandshake` from `websocket.go`. -/
def isWebSocketHandshake (header : Header) : Bool :=
  headerContains header "Connection" "Upgrade" &&
  headerContains header "Upgrade" "websocket"

/-- The spec's description of token containment, written from the spec's
words for the refinement claim: some recorded value for `name` has a
comma-separated token whose trimmed form is case-insensitively equal to
`value`. -/
def specHasToken (header : Header) (name value : String) : Prop :=
  ∃ v ∈ headerIndex header name, ∃ s ∈ splitComma v,
    equalFold value (trimSpace s) = true

instance (header : Header) (name value : String) :
    Decidable (specHasToken header name value) := by
  unfold specHasToken; infer_instance

/-! ## Raw connection acquirer -/

/-- What `(*ProxyHttpServer).hijackConnection` can do: halt the goroutine
(`panic`), fail returning `(nil, err)`, or return the hijacked connection
with a nil error.  Connections are identified by a number. -/
inductive HijackResult
  | panicked (msg : String)
  | failed (err : String)
  | acquired (conn : Nat)
deriving DecidableEq

/-- The host runtime's `http.ResponseWriter`, abstracted to what
`hijackConnection` consults: whether the type assertion to `http.Hijacker`
succeeds, and what `Hijack()` returns when it is available. -/
structure ResponseWriter where
  supportsHijack : Bool
  hijackOutcome : Except String Nat

/-- The message `ctx.Warnf("Hijack error: %v", err)` logs. -/
def hijackWarnMessage (err : String) : String := "Hijack error: " ++ err

/-- `hijackConnection` from `websocket.go`: panic when the writer is not a
`http.Hijacker`; otherwise hijack, logging and returning any error, or
returning the connection with a nil error.  The second component is the
list of warnings written to the session's sink. -/
def hijackConnection (w : ResponseWriter) : HijackResult × List String :=
  if w.supportsHijack then
    match w.hijackOutcome with
    | .error err => (.failed err, [hijackWarnMessage err])
    | .ok conn => (.acquired conn, [])
  else
    (.panicked "httpserver does not support hijacking", [])

/-! ## The relay engine

`proxyWebsocket` is modelled as a function producing the relay's trace of
observable events.  The two goroutines it spawns are independent (they
share no mutable state), so every behaviour of the Go program corresponds
to some interleaving of the two goroutines' event sequences followed by
the deferred cleanup; the interleaving is a parameter (`sched`), and the
claims are proved for every choice of it.  The outcomes of the external
copy operations (the registered copy hook's return value, `io.Copy`'s
error inside the default primitive) are supplied by a `CopyEnv`. -/

/-- `WebSocketDirection` from `websocket.go`. -/
inductive WebSocketDirection
  | clientToServer
  | serverToClient
deriving DecidableEq

/-- The two duplex streams handed to `proxyWebsocket`: the remote server
connection and the hijacked proxy client connection.  The engine only
passes them around, so their identity is all the model needs. -/
inductive ConnId
  | remoteConn
  | proxyClient
deriving DecidableEq

/-- Observable events of one relay invocation.  `closeConn` is in the
vocabulary so that "the engine never closes a stream" is a statement
about traces rather than about the missing constructor; no definition in
this file emits it. -/
inductive Event
  | fullHandler (remote client : ConnId) (session : Nat)
  | copyCall (dst src : ConnId) (direction : WebSocketDirection)
  | hookCall (dst src : ConnId) (direction : WebSocketDirection) (session : Nat)
  | hookRet (direction : WebSocketDirection) (n : Int) (err : Option String)
  | ioCopy (dst src : ConnId)
  | warn (msg : String)
  | signal (direction : WebSocketDirection)
  | closeCb (session : Nat)
  | closeConn (c : ConnId)
deriving DecidableEq

/-- The session context (`ProxyCtx`) as `proxyWebsocket` consults it: the
session identifier and the three optional handler slots.  A slot is
modelled by whether it is non-nil; what a registered hook returns is
environment data (`CopyEnv`), and the warning sink is modelled as `warn`
events in the trace (`ctx.Warnf` logs, it does not mutate the context). -/
structure ProxyCtx where
  session : Nat
  webSocketHandler : Bool
  webSocketCopyHandler : Bool
  webSocketCloseHandler : Bool
deriving DecidableEq

/-- Outcomes of the external copy operations, per direction: what a
registered `WebSocketCopyHandler` returns (byte count and error), and
what the copy inside the default primitive returns. -/
structure CopyEnv where
  hookResult : WebSocketDirection → Int × Option String
  defaultErr : WebSocketDirection → Option String

/-- Modelled from the spec: the default single-direction copy primitive
`copyOrWarn`, whose definition is outside the provided sources.  It copies
all available bytes from `src` to `dst` and logs — does not propagate to
the relay — any error to the session's warning sink; the copy's outcome is
supplied by the environment.  Returns the error (discarded by the caller)
and the emitted events. -/
def copyOrWarn (_ctx : ProxyCtx) (dst src : ConnId) (err : Option String) :
    Option String × List Event :=
  (err, Event.ioCopy dst src ::
    (match err with
     | some e => [Event.warn e]
     | none => []))

/-- The `copyFunc` closure from `proxyWebsocket`: call the registered copy
hook with `(dst, src, direction, ctx)` and return its error, or fall back
to the default primitive `copyOrWarn`. -/
def copyFunc (ctx : ProxyCtx) (env : CopyEnv) (dst src : ConnId)
    (direction : WebSocketDirection) : Option String × List Event :=
  if ctx.webSocketCopyHandler then
    let r := env.hookResult direction
    (r.snd,
      [Event.hookCall dst src direction ctx.session,
       Event.hookRet direction r.fst r.snd])
  else
    copyOrWarn ctx dst src (env.defaultErr direction)

/-- One spawned goroutine of `proxyWebsocket`: invoke `copyFunc` for its
direction (discarding the error), then send on the buffered wait channel
(the `signal` event). -/
def goroutineTrace (ctx : ProxyCtx) (env : CopyEnv) (dst src : ConnId)
    (direction : WebSocketDirection) : List Event :=
  Event.copyCall dst src direction ::
    (copyFunc ctx env dst src direction).snd ++ [Event.signal direction]

/-- An interleaving of two event sequences, chosen by `sched`: `true`
takes the next event of the first goroutine, `false` of the second; an
exhausted goroutine yields to the other.  Every run of two independent
goroutines produces some such interleaving. -/
def interleave (sched : List Bool) (xs ys : List Event) : List Event :=
  match sched with
  | [] => xs ++ ys
  | b :: rest =>
    if b then
      match xs with
      | [] => ys
      | x :: xs => x :: interleave rest xs ys
    else
      match ys with
      | [] => xs
      | y :: ys => y :: interleave rest xs ys

/-- The result of one relay invocation: the session context as the engine
leaves it, and the trace of events that happened before the call
returned. -/
structure RelayResult where
  ctx : ProxyCtx
  trace : List Event
deriving DecidableEq

/-- `proxyWebsocket` from `websocket.go`.  With a full handler set, it
delegates entirely and returns.  Otherwise it spawns one goroutine per
direction — `copyFunc(remoteConn, proxyClient, ClientToServer)` and
`copyFunc(proxyClient, remoteConn, ServerToClient)`, each signalling the
wait channel when done — receives from the channel twice, and runs the
deferred cleanup, which invokes the close handler when one is set. -/
def proxyWebsocket (ctx : ProxyCtx) (env : CopyEnv) (sched : List Bool) :
    RelayResult :=
  if ctx.webSocketHandler then
    ⟨ctx, [Event.fullHandler ConnId.remoteConn ConnId.proxyClient ctx.session]⟩
  else
    let g1 := goroutineTrace ctx env ConnId.remoteConn ConnId.proxyClient
      WebSocketDirection.clientToServer
    let g2 := goroutineTrace ctx env ConnId.proxyClient ConnId.remoteConn
      WebSocketDirection.serverToClient
    ⟨ctx, interleave sched g1 g2 ++
      (if ctx.webSocketCloseHandler then [Event.closeCb ctx.session] else [])⟩

/-! ## Event discriminators used by the claims -/

/-- Is this event an invocation of the full handler? -/
def isFullHandlerEv : Event → Bool
  | .fullHandler _ _ _ => true
  | _ => false

/-- Is this event an invocation of the registered copy hook? -/
def isHookCallEv : Event → Bool
  | .hookCall _ _ _ _ => true
  | _ => false

/-- Is this event a run of the default copy primitive's copy? -/
def isIoCopyEv : Event → Bool
  | .ioCopy _ _ => true
  | _ => false

/-- Is this event a completion signal for direction `d`? -/
def isSignalEv (d : WebSocketDirection) : Event → Bool
  | .signal d2 => d == d2
  | _ => false

/-- Is this event an invocation of the close callback? -/
def isCloseCbEv : Event → Bool
  | .closeCb _ => true
  | _ => false

/-- Is this event the engine closing a stream? -/
def isCloseConnEv : Event → Bool
  | .closeConn _ => true
  | _ => false

/-- Is this event an invocation of the per-direction copy operation
(the `copyFunc` closure)? -/
def isCopyCallEv : Event → Bool
  | .copyCall _ _ _ => true
  | _ => false

/-- The destination stream of a direction, as `proxyWebsocket` wires it. -/
def dstFor : WebSocketDirection → ConnId
  | .clientToServer => .remoteConn
  | .serverToClient => .proxyClient

/-- The source stream of a direction, as `proxyWebsocket` wires it. -/
def srcFor : WebSocketDirection → ConnId
  | .clientToServer => .proxyClient
  | .serverToClient => .remoteConn

/-! ## Concrete inputs used to witness the hypotheses of the theorems -/

/-- A context with no handlers registered except the close callback. -/
def ctxDefaultPath : ProxyCtx := ⟨7, false, false, true⟩

/-- A context with a copy hook and a close callback registered. -/
def ctxHookPath : ProxyCtx := ⟨7, false, true, true⟩

/-- A context with a full handler and (pointedly) a close callback. -/
def ctxFullPath : ProxyCtx := ⟨7, true, false, true⟩

/-- An environment in which every copy succeeds. -/
def envAllOk : CopyEnv := ⟨fun _ => (3, none), fun _ => none⟩

/-- An environment in which every copy fails. -/
def envAllErr : CopyEnv :=
  ⟨fun _ => (0, some "hook failed"), fun _ => some "copy failed"⟩

/-! ## Counting events across an interleaving -/

theorem countP_interleave (p : Event → Bool) :
    ∀ (sched : List Bool) (xs ys : List Event),
      (interleave sched xs ys).countP p = xs.countP p + ys.countP p := by
  intro sched
  induction sched with
  | nil => intro xs ys; simp [interleave, List.countP_append]
  | cons b rest ih =>
    intro xs ys
    cases b with
    | false =>
      cases ys with
      | nil => simp [interleave]
      | cons y ys => simp only [interleave, if_neg, Bool.false_eq_true,
          not_false_iff, List.countP_cons, ih]; omega
    | true =>
      cases xs with
      | nil => simp [interleave]
      | cons x xs => simp only [interleave, if_pos, List.countP_cons, ih]; omega

theorem count_interleave (a : Event) (sched : List Bool) (xs ys : List Event) :
    (interleave sched xs ys).count a = xs.count a + ys.count a :=
  countP_interleave (· == a) sched xs ys

/-! ## Counting events in one goroutine's trace -/

theorem goroutine_countP_signal (ctx : ProxyCtx) (env : CopyEnv)
    (dst src : ConnId) (d d2 : WebSocketDirection) :
    (goroutineTrace ctx env dst src d).countP (isSignalEv d2) =
      if d2 = d then 1 else 0 := by
  cases hc : ctx.webSocketCopyHandler <;> cases he : env.defaultErr d <;>
  cases d <;> cases d2 <;>
  simp [goroutineTrace, copyFunc, copyOrWarn, hc, he, List.countP_cons,
    List.countP_append, isSignalEv]

theorem goroutine_countP_closeCb (ctx : ProxyCtx) (env : CopyEnv)
    (dst src : ConnId) (d : WebSocketDirection) :
    (goroutineTrace ctx env dst src d).countP isCloseCbEv = 0 := by
  cases hc : ctx.webSocketCopyHandler <;> cases he : env.defaultErr d <;>
  simp [goroutineTrace, copyFunc, copyOrWarn, hc, he, List.countP_cons,
    List.countP_append, isCloseCbEv]

theorem goroutine_countP_fullHandler (ctx : ProxyCtx) (env : CopyEnv)
    (dst src : ConnId) (d : WebSocketDirection) :
    (goroutineTrace ctx env dst src d).countP isFullHandlerEv = 0 := by
  cases hc : ctx.webSocketCopyHandler <;> cases he : env.defaultErr d <;>
  simp [goroutineTrace, copyFunc, copyOrWarn, hc, he, List.countP_cons,
    List.countP_append, isFullHandlerEv]

theorem goroutine_countP_closeConn (ctx : ProxyCtx) (env : CopyEnv)
    (dst src : ConnId) (d : WebSocketDirection) :
    (goroutineTrace ctx env dst src d).countP isCloseConnEv = 0 := by
  cases hc : ctx.webSocketCopyHandler <;> cases he : env.defaultErr d <;>
  simp [goroutineTrace, copyFunc, copyOrWarn, hc, he, List.countP_cons,
    List.countP_append, isCloseConnEv]

theorem goroutine_countP_copyCall (ctx : ProxyCtx) (env : CopyEnv)
    (dst src : ConnId) (d : WebSocketDirection) :
    (goroutineTrace ctx env dst src d).countP isCopyCallEv = 1 := by
  cases hc : ctx.webSocketCopyHandler <;> cases he : env.defaultErr d <;>
  simp [goroutineTrace, copyFunc, copyOrWarn, hc, he, List.countP_cons,
    List.countP_append, isCopyCallEv]

theorem goroutine_count_copyCall (ctx : ProxyCtx) (env : CopyEnv)
    (dst src dst2 src2 : ConnId) (d d2 : WebSocketDirection) :
    (goroutineTrace ctx env dst src d).count (Event.copyCall dst2 src2 d2) =
      if dst = dst2 ∧ src = src2 ∧ d = d2 then 1 else 0 := by
  cases hc : ctx.webSocketCopyHandler <;> cases he : env.defaultErr d <;>
  simp [goroutineTrace, copyFunc, copyOrWarn, hc, he, List.count_cons,
    List.count_append]

theorem goroutine_count_hookCall (ctx : ProxyCtx) (env : CopyEnv)
    (dst src dst2 src2 : ConnId) (d d2 : WebSocketDirection) (s2 : Nat)
    (hc : ctx.webSocketCopyHandler = true) :
    (goroutineTrace ctx env dst src d).count (Event.hookCall dst2 src2 d2 s2) =
      if dst = dst2 ∧ src = src2 ∧ d = d2 ∧ ctx.session = s2 then 1 else 0 := by
  simp [goroutineTrace, copyFunc, copyOrWarn, hc, List.count_cons,
    List.count_append]

theorem goroutine_count_hookRet (ctx : ProxyCtx) (env : CopyEnv)
    (dst src : ConnId) (d d2 : WebSocketDirection) (n : Int) (e : Option String)
    (hc : ctx.webSocketCopyHandler = true) :
    (goroutineTrace ctx env dst src d).count (Event.hookRet d2 n e) =
      if d = d2 ∧ (env.hookResult d).fst = n ∧ (env.hookResult d).snd = e
      then 1 else 0 := by
  simp [goroutineTrace, copyFunc, copyOrWarn, hc, List.count_cons,
    List.count_append]

theorem goroutine_count_ioCopy (ctx : ProxyCtx) (env : CopyEnv)
    (dst src dst2 src2 : ConnId) (d : WebSocketDirection)
    (hc : ctx.webSocketCopyHandler = false) :
    (goroutineTrace ctx env dst src d).count (Event.ioCopy dst2 src2) =
      if dst = dst2 ∧ src = src2 then 1 else 0 := by
  cases he : env.defaultErr d <;>
  simp [goroutineTrace, copyFunc, copyOrWarn, hc, he, List.count_cons,
    List.count_append]

theorem goroutine_countP_ioCopy_hook (ctx : ProxyCtx) (env : CopyEnv)
    (dst src : ConnId) (d : WebSocketDirection)
    (hc : ctx.webSocketCopyHandler = true) :
    (goroutineTrace ctx env dst src d).countP isIoCopyEv = 0 := by
  simp [goroutineTrace, copyFunc, copyOrWarn, hc, List.countP_cons,
    List.countP_append, isIoCopyEv]

theorem goroutine_countP_hookCall_default (ctx : ProxyCtx) (env : CopyEnv)
    (dst src : ConnId) (d : WebSocketDirection)
    (hc : ctx.webSocketCopyHandler = false) :
    (goroutineTrace ctx env dst src d).countP isHookCallEv = 0 := by
  cases he : env.defaultErr d <;>
  simp [goroutineTrace, copyFunc, copyOrWarn, hc, he, List.countP_cons,
    List.countP_append, isHookCallEv]

theorem proxyWebsocket_trace_default (ctx : ProxyCtx) (env : CopyEnv)
    (sched : List Bool) (h : ctx.webSocketHandler = false) :
    (proxyWebsocket ctx env sched).trace =
      interleave sched
        (goroutineTrace ctx env ConnId.remoteConn ConnId.proxyClient
          WebSocketDirection.clientToServer)
        (goroutineTrace ctx env ConnId.proxyClient ConnId.remoteConn
          WebSocketDirection.serverToClient) ++
      (if ctx.webSocketCloseHandler then [Event.closeCb ctx.session] else []) := by
  simp [proxyWebsocket, h]

/-! ## The claims -/

/-- Claim C1: with no full handler registered, the per-direction copy
operation (`copyFunc`) is invoked exactly once per direction — once with
destination the remote stream, source the client stream and the
client-to-server tag, once with the arguments swapped and the
server-to-client tag — and there are no further invocations, in every
interleaving and for every copy outcome. -/
theorem proxyWebsocket_invokes_each_direction_once (ctx : ProxyCtx)
    (env : CopyEnv) (sched : List Bool) (h : ctx.webSocketHandler = false) :
    (proxyWebsocket ctx env sched).trace.count
      (Event.copyCall ConnId.remoteConn ConnId.proxyClient
        WebSocketDirection.clientToServer) = 1 ∧
    (proxyWebsocket ctx env sched).trace.count
      (Event.copyCall ConnId.proxyClient ConnId.remoteConn
        WebSocketDirection.serverToClient) = 1 ∧
    (proxyWebsocket ctx env sched).trace.countP isCopyCallEv = 2 := by
  rw [proxyWebsocket_trace_default ctx env sched h]
  cases hcl : ctx.webSocketCloseHandler <;>
  simp [List.count_append, List.countP_append, count_interleave,
    countP_interleave, goroutine_count_copyCall, goroutine_countP_copyCall,
    hcl, isCopyCallEv, List.count_cons, List.countP_cons]

/-- Claim C1, witnessed on a context with no handlers, every copy
succeeding, under the schedule that runs the client-to-server goroutine
first. -/
theorem proxyWebsocket_invokes_each_direction_once_witness :
    ctxDefaultPath.webSocketHandler = false ∧
    ((proxyWebsocket ctxDefaultPath envAllOk []).trace.count
      (Event.copyCall ConnId.remoteConn ConnId.proxyClient
        WebSocketDirection.clientToServer) = 1 ∧
    (proxyWebsocket ctxDefaultPath envAllOk []).trace.count
      (Event.copyCall ConnId.proxyClient ConnId.remoteConn
        WebSocketDirection.serverToClient) = 1 ∧
    (proxyWebsocket ctxDefaultPath envAllOk []).trace.countP isCopyCallEv = 2) :=
  ⟨rfl, proxyWebsocket_invokes_each_direction_once ctxDefaultPath envAllOk [] rfl⟩

/-- Claim C2: with no full handler and a close callback registered, the
close callback runs exactly once, with the session context, after both
directions have signalled completion — whatever each direction's copy
returned. -/
theorem proxyWebsocket_close_callback_once (ctx : ProxyCtx) (env : CopyEnv)
    (sched : List Bool) (h : ctx.webSocketHandler = false)
    (hcl : ctx.webSocketCloseHandler = true) :
    (proxyWebsocket ctx env sched).trace.countP isCloseCbEv = 1 ∧
    ∃ pre, (proxyWebsocket ctx env sched).trace =
        pre ++ [Event.closeCb ctx.session] ∧
      pre.countP (isSignalEv WebSocketDirection.clientToServer) = 1 ∧
      pre.countP (isSignalEv WebSocketDirection.serverToClient) = 1 := by
  constructor
  · rw [proxyWebsocket_trace_default ctx env sched h]
    simp [List.countP_append, countP_interleave, goroutine_countP_closeCb,
      hcl, isCloseCbEv]
  · refine ⟨interleave sched
      (goroutineTrace ctx env ConnId.remoteConn ConnId.proxyClient
        WebSocketDirection.clientToServer)
      (goroutineTrace ctx env ConnId.proxyClient ConnId.remoteConn
        WebSocketDirection.serverToClient), ?_, ?_, ?_⟩
    · rw [proxyWebsocket_trace_default ctx env sched h, hcl]
      simp
    · simp [countP_interleave, goroutine_countP_signal]
    · simp [countP_interleave, goroutine_countP_signal]

/-- Claim C2, witnessed on a context with only the close callback
registered, under an environment where both copies fail. -/
theorem proxyWebsocket_close_callback_once_witness :
    ctxDefaultPath.webSocketHandler = false ∧
    ctxDefaultPath.webSocketCloseHandler = true ∧
    ((proxyWebsocket ctxDefaultPath envAllErr [false]).trace.countP
      isCloseCbEv = 1 ∧
    ∃ pre, (proxyWebsocket ctxDefaultPath envAllErr [false]).trace =
        pre ++ [Event.closeCb ctxDefaultPath.session] ∧
      pre.countP (isSignalEv WebSocketDirection.clientToServer) = 1 ∧
      pre.countP (isSignalEv WebSocketDirection.serverToClient) = 1) :=
  ⟨rfl, rfl,
    proxyWebsocket_close_callback_once ctxDefaultPath envAllErr [false] rfl rfl⟩

/-- Claim C3: with a full handler registered the engine delegates — the
whole relay is the one synchronous handler invocation with the remote
stream, the client stream and the session context; no close callback, no
per-direction copy, no default copy and no hook call happen.  Without a
full handler, the full handler is never invoked: exactly one of the two
paths executes. -/
theorem proxyWebsocket_full_handler_path (ctx : ProxyCtx) (env : CopyEnv)
    (sched : List Bool) :
    (ctx.webSocketHandler = true →
      proxyWebsocket ctx env sched =
        ⟨ctx, [Event.fullHandler ConnId.remoteConn ConnId.proxyClient
          ctx.session]⟩ ∧
      (proxyWebsocket ctx env sched).trace.countP isCloseCbEv = 0 ∧
      (proxyWebsocket ctx env sched).trace.countP isCopyCallEv = 0 ∧
      (proxyWebsocket ctx env sched).trace.countP isIoCopyEv = 0 ∧
      (proxyWebsocket ctx env sched).trace.countP isHookCallEv = 0) ∧
    (ctx.webSocketHandler = false →
      (proxyWebsocket ctx env sched).trace.countP isFullHandlerEv = 0) := by
  constructor
  · intro hW
    refine ⟨by simp [proxyWebsocket, hW], ?_, ?_, ?_, ?_⟩ <;>
    simp [proxyWebsocket, hW, isCloseCbEv, isCopyCallEv, isIoCopyEv,
      isHookCallEv]
  · intro hW
    rw [proxyWebsocket_trace_default ctx env sched hW]
    cases hcl : ctx.webSocketCloseHandler <;>
    simp [List.countP_append, countP_interleave, goroutine_countP_fullHandler,
      hcl, isFullHandlerEv]

/-- Claim C3, witnessed on a context with a full handler and a close
callback that must stay uncalled. -/
theorem proxyWebsocket_full_handler_path_witness :
    ctxFullPath.webSocketHandler = true ∧
    (proxyWebsocket ctxFullPath envAllOk [] =
      ⟨ctxFullPath, [Event.fullHandler ConnId.remoteConn ConnId.proxyClient
        ctxFullPath.session]⟩ ∧
    (proxyWebsocket ctxFullPath envAllOk []).trace.countP isCloseCbEv = 0 ∧
    (proxyWebsocket ctxFullPath envAllOk []).trace.countP isCopyCallEv = 0 ∧
    (proxyWebsocket ctxFullPath envAllOk []).trace.countP isIoCopyEv = 0 ∧
    (proxyWebsocket ctxFullPath envAllOk []).trace.countP isHookCallEv = 0) :=
  ⟨rfl, (proxyWebsocket_full_handler_path ctxFullPath envAllOk []).1 rfl⟩

/-- Claim C5: with no full handler, a registered copy hook carries each
direction's transfer — called once per direction with the right
destination, source, direction tag and session context, its byte count
and error appearing exactly once per direction in the trace — and the
default primitive is not used; with no hook, the default primitive runs
once per direction and the hook is never called. -/
theorem proxyWebsocket_copy_resolution (ctx : ProxyCtx) (env : CopyEnv)
    (sched : List Bool) (h : ctx.webSocketHandler = false) :
    (ctx.webSocketCopyHandler = true →
      (proxyWebsocket ctx env sched).trace.count
        (Event.hookCall ConnId.remoteConn ConnId.proxyClient
          WebSocketDirection.clientToServer ctx.session) = 1 ∧
      (proxyWebsocket ctx env sched).trace.count
        (Event.hookCall ConnId.proxyClient ConnId.remoteConn
          WebSocketDirection.serverToClient ctx.session) = 1 ∧
      (proxyWebsocket ctx env sched).trace.count
        (Event.hookRet WebSocketDirection.clientToServer
          (env.hookResult WebSocketDirection.clientToServer).fst
          (env.hookResult WebSocketDirection.clientToServer).snd) = 1 ∧
      (proxyWebsocket ctx env sched).trace.count
        (Event.hookRet WebSocketDirection.serverToClient
          (env.hookResult WebSocketDirection.serverToClient).fst
          (env.hookResult WebSocketDirection.serverToClient).snd) = 1 ∧
      (proxyWebsocket ctx env sched).trace.countP isIoCopyEv = 0) ∧
    (ctx.webSocketCopyHandler = false →
      (proxyWebsocket ctx env sched).trace.count
        (Event.ioCopy ConnId.remoteConn ConnId.proxyClient) = 1 ∧
      (proxyWebsocket ctx env sched).trace.count
        (Event.ioCopy ConnId.proxyClient ConnId.remoteConn) = 1 ∧
      (proxyWebsocket ctx env sched).trace.countP isHookCallEv = 0) := by
  rw [proxyWebsocket_trace_default ctx env sched h]
  constructor
  · intro hc
    cases hcl : ctx.webSocketCloseHandler <;>
    simp [List.count_append, List.countP_append, count_interleave,
      countP_interleave, goroutine_count_hookCall, goroutine_count_hookRet,
      goroutine_countP_ioCopy_hook, hc, hcl, List.count_cons,
      List.countP_cons, isIoCopyEv]
  · intro hc
    cases hcl : ctx.webSocketCloseHandler <;>
    simp [List.count_append, List.countP_append, count_interleave,
      countP_interleave, goroutine_count_ioCopy,
      goroutine_countP_hookCall_default, hc, hcl, List.count_cons,
      List.countP_cons, isHookCallEv]

/-- Claim C5, witnessed twice over: on a context with a copy hook
registered and on one without, each with a one-step schedule. -/
theorem proxyWebsocket_copy_resolution_witness :
    ctxHookPath.webSocketHandler = false ∧
    ctxHookPath.webSocketCopyHandler = true ∧
    ctxDefaultPath.webSocketHandler = false ∧
    ctxDefaultPath.webSocketCopyHandler = false ∧
    ((proxyWebsocket ctxHookPath envAllOk [true]).trace.count
      (Event.hookCall ConnId.remoteConn ConnId.proxyClient
        WebSocketDirection.clientToServer ctxHookPath.session) = 1 ∧
    (proxyWebsocket ctxHookPath envAllOk [true]).trace.count
      (Event.hookCall ConnId.proxyClient ConnId.remoteConn
        WebSocketDirection.serverToClient ctxHookPath.session) = 1 ∧
    (proxyWebsocket ctxHookPath envAllOk [true]).trace.count
      (Event.hookRet WebSocketDirection.clientToServer
        (envAllOk.hookResult WebSocketDirection.clientToServer).fst
        (envAllOk.hookResult WebSocketDirection.clientToServer).snd) = 1 ∧
    (proxyWebsocket ctxHookPath envAllOk [true]).trace.count
      (Event.hookRet WebSocketDirection.serverToClient
        (envAllOk.hookResult WebSocketDirection.serverToClient).fst
        (envAllOk.hookResult WebSocketDirection.serverToClient).snd) = 1 ∧
    (proxyWebsocket ctxHookPath envAllOk [true]).trace.countP isIoCopyEv = 0) ∧
    ((proxyWebsocket ctxDefaultPath envAllOk [true]).trace.count
      (Event.ioCopy ConnId.remoteConn ConnId.proxyClient) = 1 ∧
    (proxyWebsocket ctxDefaultPath envAllOk [true]).trace.count
      (Event.ioCopy ConnId.proxyClient ConnId.remoteConn) = 1 ∧
    (proxyWebsocket ctxDefaultPath envAllOk [true]).trace.countP
      isHookCallEv = 0) :=
  ⟨rfl, rfl, rfl, rfl,
    (proxyWebsocket_copy_resolution ctxHookPath envAllOk [true] rfl).1 rfl,
    (proxyWebsocket_copy_resolution ctxDefaultPath envAllOk [true] rfl).2 rfl⟩

/-- Claim C7: with no full handler, an error from a direction's copy
operation — hook or default — is not fatal: both directions still run and
signal exactly once, the other direction's copy invocation still happens,
and a registered close callback still fires exactly once; nothing of the
error reaches the relay's result. -/
theorem proxyWebsocket_copy_error_not_fatal (ctx : ProxyCtx) (env : CopyEnv)
    (sched : List Bool) (d : WebSocketDirection) (e : String)
    (h : ctx.webSocketHandler = false)
    (herr : (copyFunc ctx env (dstFor d) (srcFor d) d).fst = some e) :
    (proxyWebsocket ctx env sched).trace.countP
      (isSignalEv WebSocketDirection.clientToServer) = 1 ∧
    (proxyWebsocket ctx env sched).trace.countP
      (isSignalEv WebSocketDirection.serverToClient) = 1 ∧
    (proxyWebsocket ctx env sched).trace.count
      (Event.copyCall ConnId.remoteConn ConnId.proxyClient
        WebSocketDirection.clientToServer) = 1 ∧
    (proxyWebsocket ctx env sched).trace.count
      (Event.copyCall ConnId.proxyClient ConnId.remoteConn
        WebSocketDirection.serverToClient) = 1 ∧
    (ctx.webSocketCloseHandler = true →
      (proxyWebsocket ctx env sched).trace.countP isCloseCbEv = 1) := by
  rw [proxyWebsocket_trace_default ctx env sched h]
  cases hcl : ctx.webSocketCloseHandler <;>
  simp [List.count_append, List.countP_append, count_interleave,
    countP_interleave, goroutine_count_copyCall, goroutine_countP_signal,
    goroutine_countP_closeCb, hcl, isSignalEv, isCloseCbEv, List.count_cons,
    List.countP_cons]

/-- Claim C7, witnessed on the default path with the client-to-server
copy failing and a close callback registered. -/
theorem proxyWebsocket_copy_error_not_fatal_witness :
    ctxDefaultPath.webSocketHandler = false ∧
    (copyFunc ctxDefaultPath envAllErr
      (dstFor WebSocketDirection.clientToServer)
      (srcFor WebSocketDirection.clientToServer)
      WebSocketDirection.clientToServer).fst = some "copy failed" ∧
    ((proxyWebsocket ctxDefaultPath envAllErr [false, true]).trace.countP
      (isSignalEv WebSocketDirection.clientToServer) = 1 ∧
    (proxyWebsocket ctxDefaultPath envAllErr [false, true]).trace.countP
      (isSignalEv WebSocketDirection.serverToClient) = 1 ∧
    (proxyWebsocket ctxDefaultPath envAllErr [false, true]).trace.count
      (Event.copyCall ConnId.remoteConn ConnId.proxyClient
        WebSocketDirection.clientToServer) = 1 ∧
    (proxyWebsocket ctxDefaultPath envAllErr [false, true]).trace.count
      (Event.copyCall ConnId.proxyClient ConnId.remoteConn
        WebSocketDirection.serverToClient) = 1 ∧
    (ctxDefaultPath.webSocketCloseHandler = true →
      (proxyWebsocket ctxDefaultPath envAllErr [false, true]).trace.countP
        isCloseCbEv = 1)) :=
  ⟨rfl, rfl, proxyWebsocket_copy_error_not_fatal ctxDefaultPath envAllErr
    [false, true] WebSocketDirection.clientToServer "copy failed" rfl rfl⟩

/-- Claim C6: with no full handler, each direction signals completion
exactly once and the relay's returned trace contains both signals before
the cleanup step — the call is released only after both directions have
finished, in every interleaving and for every copy outcome. -/
theorem proxyWebsocket_waits_for_both (ctx : ProxyCtx) (env : CopyEnv)
    (sched : List Bool) (h : ctx.webSocketHandler = false) :
    (proxyWebsocket ctx env sched).trace.countP
      (isSignalEv WebSocketDirection.clientToServer) = 1 ∧
    (proxyWebsocket ctx env sched).trace.countP
      (isSignalEv WebSocketDirection.serverToClient) = 1 ∧
    ∃ body, (proxyWebsocket ctx env sched).trace =
        body ++
          (if ctx.webSocketCloseHandler then [Event.closeCb ctx.session]
           else []) ∧
      body.countP (isSignalEv WebSocketDirection.clientToServer) = 1 ∧
      body.countP (isSignalEv WebSocketDirection.serverToClient) = 1 := by
  refine ⟨?_, ?_, ?_⟩
  · rw [proxyWebsocket_trace_default ctx env sched h]
    cases hcl : ctx.webSocketCloseHandler <;>
    simp [List.countP_append, countP_interleave, goroutine_countP_signal,
      hcl, isSignalEv]
  · rw [proxyWebsocket_trace_default ctx env sched h]
    cases hcl : ctx.webSocketCloseHandler <;>
    simp [List.countP_append, countP_interleave, goroutine_countP_signal,
      hcl, isSignalEv]
  · refine ⟨interleave sched
      (goroutineTrace ctx env ConnId.remoteConn ConnId.proxyClient
        WebSocketDirection.clientToServer)
      (goroutineTrace ctx env ConnId.proxyClient ConnId.remoteConn
        WebSocketDirection.serverToClient),
      proxyWebsocket_trace_default ctx env sched h, ?_, ?_⟩ <;>
    simp [countP_interleave, goroutine_countP_signal]

/-- Claim C6, witnessed with no handlers at all registered and an
alternating schedule. -/
theorem proxyWebsocket_waits_for_both_witness :
    (⟨9, false, false, false⟩ : ProxyCtx).webSocketHandler = false ∧
    ((proxyWebsocket ⟨9, false, false, false⟩ envAllOk
      [true, false, true, false]).trace.countP
        (isSignalEv WebSocketDirection.clientToServer) = 1 ∧
    (proxyWebsocket ⟨9, false, false, false⟩ envAllOk
      [true, false, true, false]).trace.countP
        (isSignalEv WebSocketDirection.serverToClient) = 1 ∧
    ∃ body, (proxyWebsocket ⟨9, false, false, false⟩ envAllOk
        [true, false, true, false]).trace =
        body ++
          (if (⟨9, false, false, false⟩ : ProxyCtx).webSocketCloseHandler
           then [Event.closeCb (⟨9, false, false, false⟩ : ProxyCtx).session]
           else []) ∧
      body.countP (isSignalEv WebSocketDirection.clientToServer) = 1 ∧
      body.countP (isSignalEv WebSocketDirection.serverToClient) = 1) :=
  ⟨rfl, proxyWebsocket_waits_for_both ⟨9, false, false, false⟩ envAllOk
    [true, false, true, false] rfl⟩

/-- Claim C9: the engine never closes either stream (no `closeConn` event
ever appears in a relay trace) and hands the session context back exactly
as it received it — on the full-handler path and the hook/default path
alike. -/
theorem proxyWebsocket_frame (ctx : ProxyCtx) (env : CopyEnv)
    (sched : List Bool) :
    (proxyWebsocket ctx env sched).ctx = ctx ∧
    (proxyWebsocket ctx env sched).trace.countP isCloseConnEv = 0 := by
  cases hW : ctx.webSocketHandler
  · constructor
    · simp [proxyWebsocket, hW]
    · rw [proxyWebsocket_trace_default ctx env sched hW]
      cases hcl : ctx.webSocketCloseHandler <;>
      simp [List.countP_append, countP_interleave, goroutine_countP_closeConn,
        hcl, isCloseConnEv]
  · constructor <;> simp [proxyWebsocket, hW, isCloseConnEv]

/-- Claim C4: for every header map, the upgrade predicate is true exactly
when the map records a "Connection" value with a comma-separated token
case-insensitively equal to "Upgrade" and an "Upgrade" value with a token
case-insensitively equal to "websocket" (all recorded occurrences
scanned; a missing header gives false; the predicate is a total Lean
function, hence pure). -/
theorem isWebSocketHandshake_iff_spec (H : Header) :
    isWebSocketHandshake H = true ↔
      specHasToken H "Connection" "Upgrade" ∧
      specHasToken H "Upgrade" "websocket" := by
  simp [isWebSocketHandshake, headerContains, specHasToken,
    List.any_eq_true, Bool.and_eq_true]

/-- Claim C10: header-name lookup is an exact match on the map key: a map
none of whose keys is exactly "Connection" or "Upgrade" makes the
predicate false, whatever the values hold. -/
theorem isWebSocketHandshake_exact_keys (H : Header)
    (h : ∀ p ∈ H, p.fst ≠ "Connection" ∧ p.fst ≠ "Upgrade") :
    isWebSocketHandshake H = false := by
  have hfind : H.find? (fun p => p.fst == "Connection") = none := by
    rw [List.find?_eq_none]
    intro p hp
    simp [(h p hp).1]
  simp [isWebSocketHandshake, headerContains, headerIndex, hfind]

/-- Claim C10, witnessed at a header map whose lowercase keys carry the
required tokens: the predicate still returns false. -/
theorem isWebSocketHandshake_exact_keys_witness :
    (∀ p ∈ ([("connection", ["Upgrade"]), ("upgrade", ["websocket"])] : Header),
      p.fst ≠ "Connection" ∧ p.fst ≠ "Upgrade") ∧
    isWebSocketHandshake
      ([("connection", ["Upgrade"]), ("upgrade", ["websocket"])] : Header) = false :=
  ⟨by decide, isWebSocketHandshake_exact_keys _ (by decide)⟩

/-- Claim C8: the acquirer panics when the host does not support
hijacking; when it does but the hijack errs, the error is logged to the
warning sink and returned with no connection; on success the hijacked
connection comes back with a nil error. -/
theorem hijackConnection_spec (w : ResponseWriter) :
    (w.supportsHijack = false →
      hijackConnection w =
        (.panicked "httpserver does not support hijacking", [])) ∧
    (∀ e, w.supportsHijack = true → w.hijackOutcome = .error e →
      hijackConnection w = (.failed e, [hijackWarnMessage e])) ∧
    (∀ c, w.supportsHijack = true → w.hijackOutcome = .ok c →
      hijackConnection w = (.acquired c, [])) := by
  refine ⟨fun h => ?_, fun e hs ho => ?_, fun c hs ho => ?_⟩ <;>
    simp [hijackConnection, *]

/-- Claim C8, witnessed on the three concrete host behaviours. -/
theorem hijackConnection_spec_witness :
    hijackConnection ⟨false, .ok 0⟩ =
      (.panicked "httpserver does not support hijacking", []) ∧
    hijackConnection ⟨true, .error "use of closed network connection"⟩ =
      (.failed "use of closed network connection",
        [hijackWarnMessage "use of closed network connection"]) ∧
    hijackConnection ⟨true, .ok 5⟩ = (.acquired 5, []) :=
  ⟨(hijackConnection_spec ⟨false, .ok 0⟩).1 rfl,
   (hijackConnection_spec ⟨true, .error "use of closed network connection"⟩).2.1
     "use of closed network connection" rfl rfl,
   (hijackConnection_spec ⟨true, .ok 5⟩).2.2 5 rfl rfl⟩

end GoProxy
